import Mathlib

/-!
Verification of the DatenLord SDK binding contract (repository `c_buffer`).

The repository consists of C headers declaring the SDK surface
(`src/include/datenlord.h`, `src/examples/c/datenlord.h`), a C demo, and a
pybind11 binding module (`src/unnamed/part_000`).  The Rust implementation
behind the `extern "C"` declarations is not part of the given sources, so the
backing operations are modelled from the specification; the pybind11 glue
(`handle_error`, the `read_file` wrapper) is embedded directly from its
source.
-/

namespace Datenlord

/-- Byte payloads cross the boundary as pointer/length pairs
(`datenlord_bytes` in `src/include/datenlord.h`); embedded as the byte list,
whose length is the `len` field. -/
abbrev Bytes : Type := List Nat

/-- Error record `datenlord_error` from `src/include/datenlord.h`:
a numeric `code` and a `message` byte buffer. -/
structure datenlord_error where
  code : Nat
  message : List Nat
deriving DecidableEq

/-- File attributes `datenlord_file_stat` from `src/examples/c/datenlord.h`
lines 32-49: inode number, size, blocks, permissions, hard-link count,
uid, gid, rdev. -/
structure datenlord_file_stat where
  ino : Nat
  size : Nat
  blocks : Nat
  perm : Nat
  nlink : Nat
  uid : Nat
  gid : Nat
  rdev : Nat
deriving DecidableEq

/-- Paths are modelled as their segment lists (the C interface passes them
as null-terminated strings such as "/tmp/datenlord_test/hello.txt"). -/
abbrev Path : Type := List String

/-- Modelled from the spec: a node of the backing remote filesystem (the
Rust storage client behind the `extern "C"` declarations is not under
`src/`).  The spec's data model distinguishes files (byte content) from
directories. -/
inductive FsNode where
  | file (content : List Nat)
  | dir
deriving DecidableEq

/-- Modelled from the spec: the state behind a client handle
(`datenlord_sdk`), a finite map from paths to filesystem nodes. -/
structure SdkState where
  fs : List (Path × FsNode)
deriving DecidableEq

/-- Modelled from the spec: the local filesystem seen by the copy
operations, a finite map from local paths to byte contents. -/
structure LocalState where
  files : List (Path × List Nat)
deriving DecidableEq

/-- Association-list lookup of a path in the remote filesystem. -/
def lookup (s : SdkState) (p : Path) : Option FsNode :=
  match s.fs.find? (fun e => e.1 = p) with
  | some e => some e.2
  | none => none

/-- Association-list lookup of a local file's content. -/
def lookupLocal (l : LocalState) (p : Path) : Option (List Nat) :=
  match l.files.find? (fun e => e.1 = p) with
  | some e => some e.2
  | none => none

/-- Insert or replace the node stored at a path. -/
def setEntry (s : SdkState) (p : Path) (n : FsNode) : SdkState :=
  ⟨(p, n) :: s.fs.filter (fun e => ¬(e.1 = p))⟩

/-- Insert or replace a local file's content. -/
def setLocal (l : LocalState) (p : Path) (c : List Nat) : LocalState :=
  ⟨(p, c) :: l.files.filter (fun e => ¬(e.1 = p))⟩

/-- UTF-8-ish byte rendering of an ASCII message string. -/
def strBytes (s : String) : List Nat :=
  s.toList.map (fun c => c.toNat)

/-- Modelled from the spec: the error taxonomy of section 7, each kind with
a stable nonzero numeric code and a human-readable message. -/
def connectionErr : datenlord_error := ⟨1, strBytes "connection error"⟩

def notFoundErr : datenlord_error := ⟨2, strBytes "not found"⟩

def alreadyExistsErr : datenlord_error := ⟨3, strBytes "already exists"⟩

def notEmptyErr : datenlord_error := ⟨4, strBytes "directory not empty"⟩

def ioErr : datenlord_error := ⟨5, strBytes "io error"⟩

/-- Whether `q` lies strictly below directory path `p` (`p` is a proper
initial segment of `q`). -/
def under : Path → Path → Bool
  | _, [] => false
  | [], _ :: _ => true
  | a :: as, b :: bs => a = b && under as bs

/-- Modelled from the spec: whether a directory has any entry strictly
below it. -/
def dirNonEmpty (s : SdkState) (p : Path) : Bool :=
  s.fs.any (fun e => under p e.1)

/-- Modelled from the spec: whether the parent directory of a path exists
(paths at the root have no parent requirement). -/
def parentOk (s : SdkState) (p : Path) : Bool :=
  p.dropLast = [] ||
    match lookup s p.dropLast with
    | some FsNode.dir => true
    | _ => false

/-- Modelled from the spec: `exists(sdk, dir_path)` returns a bare boolean
with no error channel (`src/include/datenlord.h` line 41); a path is
reported present exactly when the backing store has a node for it. -/
def existsPath (s : SdkState) (p : Path) : Bool :=
  (lookup s p).isSome

/-- Modelled from the spec: `init(config)` establishes the backing session.
The ability to connect is abstracted as a predicate on the configuration
string; on failure no handle is produced, only an error record; on success
a fresh handle is produced. -/
def init (canConnect : String → Bool) (config : String) :
    Except datenlord_error SdkState :=
  if canConnect config then Except.ok ⟨[]⟩ else Except.error connectionErr

/-- Modelled from the spec: `mkdir(sdk, dir_path)` creates a directory,
failing with `AlreadyExists` when the path already has a node. -/
def mkdir (s : SdkState) (p : Path) : Option datenlord_error × SdkState :=
  match lookup s p with
  | some _ => (some alreadyExistsErr, s)
  | none => (none, setEntry s p FsNode.dir)

/-- Modelled from the spec: `delete_dir(sdk, dir_path, recursive)` removes a
directory; a non-empty directory with `recursive = false` fails with
`NotEmpty`; on success the directory and everything under it is removed. -/
def delete_dir (s : SdkState) (p : Path) (recursive : Bool) :
    Option datenlord_error × SdkState :=
  match lookup s p with
  | none => (some notFoundErr, s)
  | some (FsNode.file _) => (some ioErr, s)
  | some FsNode.dir =>
    if dirNonEmpty s p && !recursive then (some notEmptyErr, s)
    else (none, ⟨s.fs.filter (fun e => ¬(e.1 = p ∨ under p e.1 = true))⟩)

/-- Modelled from the spec: `rename_path(sdk, src, dest)` fails with
`NotFound` when the source is missing and `AlreadyExists` when the
destination is taken; otherwise the node moves to the destination. -/
def rename_path (s : SdkState) (src dest : Path) :
    Option datenlord_error × SdkState :=
  match lookup s src with
  | none => (some notFoundErr, s)
  | some n =>
    match lookup s dest with
    | some _ => (some alreadyExistsErr, s)
    | none => (none, setEntry ⟨s.fs.filter (fun e => ¬(e.1 = src))⟩ dest n)

/-- Modelled from the spec: `copy_from_local_file(sdk, overwrite, local,
dest)` fails with `NotFound` when the local file is missing, with
`AlreadyExists` when the destination exists and `overwrite` is false, and
otherwise stores the local content at the destination. -/
def copy_from_local_file (loc : LocalState) (s : SdkState) (overwrite : Bool)
    (localPath destPath : Path) : Option datenlord_error × SdkState :=
  match lookupLocal loc localPath with
  | none => (some notFoundErr, s)
  | some content =>
    if (lookup s destPath).isSome && !overwrite then (some alreadyExistsErr, s)
    else (none, setEntry s destPath (FsNode.file content))

/-- Modelled from the spec: `copy_to_local_file(sdk, src, local)` fails with
`NotFound` when the remote source is missing and with an IO error when it
is not a regular file; otherwise the remote content is stored locally. -/
def copy_to_local_file (s : SdkState) (loc : LocalState)
    (srcPath localPath : Path) : Option datenlord_error × LocalState :=
  match lookup s srcPath with
  | none => (some notFoundErr, loc)
  | some FsNode.dir => (some ioErr, loc)
  | some (FsNode.file c) => (none, setLocal loc localPath c)

/-- Modelled from the spec: `create_file(sdk, file_path)` creates an empty
file, failing with `AlreadyExists` when a node is already present. -/
def create_file (s : SdkState) (p : Path) : Option datenlord_error × SdkState :=
  match lookup s p with
  | some _ => (some alreadyExistsErr, s)
  | none => (none, setEntry s p (FsNode.file []))

/-- Modelled from the spec: the stat record the callee computes for a node,
a total function of the node (every field determined). -/
def mkStatRecord (n : FsNode) : datenlord_file_stat :=
  match n with
  | FsNode.file c => ⟨1, c.length, (c.length + 511) / 512, 420, 1, 0, 0, 0⟩
  | FsNode.dir => ⟨1, 0, 0, 493, 2, 0, 0, 0⟩

/-- Modelled from the spec: `stat(sdk, file_path, out)` takes the caller's
(possibly garbage-initialized) record and either overwrites every field
from the backing node or reports `NotFound`. -/
def stat (s : SdkState) (p : Path) (callerRecord : datenlord_file_stat) :
    Except datenlord_error datenlord_file_stat :=
  match lookup s p with
  | none => Except.error notFoundErr
  | some n =>
    let _ := callerRecord
    Except.ok (mkStatRecord n)

/-- Modelled from the spec: `write_file(sdk, file_path, content)` borrows
the caller's byte buffer and stores it; fails with `NotFound` when the
parent directory is missing and with an IO error when the path is a
directory. -/
def write_file (s : SdkState) (p : Path) (content : List Nat) :
    Option datenlord_error × SdkState :=
  if parentOk s p then
    match lookup s p with
    | some FsNode.dir => (some ioErr, s)
    | some (FsNode.file _) => (none, setEntry s p (FsNode.file content))
    | none => (none, setEntry s p (FsNode.file content))
  else (some notFoundErr, s)

/-- In-bounds write of `data` into a fixed caller buffer `buf`: the first
`min data.length buf.length` bytes are replaced, the buffer keeps its
length (C array writes never resize the array). -/
def writeInto (buf data : List Nat) : List Nat :=
  data.take buf.length ++ buf.drop (min data.length buf.length)

/-- Modelled from the spec: `read_file(sdk, file_path, out)` fills the
caller-supplied pre-sized buffer with the file's content; fails with
`NotFound` when the path is missing and with an IO error on a directory.
It never allocates: the result is the caller's buffer overwritten in
place. -/
def read_file (s : SdkState) (p : Path) (buf : List Nat) :
    Except datenlord_error (List Nat) :=
  match lookup s p with
  | none => Except.error notFoundErr
  | some FsNode.dir => Except.error ioErr
  | some (FsNode.file c) => Except.ok (writeInto buf c)

/-! The pybind11 binding module (`src/unnamed/part_000`), embedded from its
source.  The backing `extern "C"` functions it calls are taken as abstract
parameters, so the theorems about the glue hold for every backing
behavior. -/

/-- Decode message bytes as a string (`std::string message((const char *)
err->message.data, err->message.len)` in the binding). -/
def bytesToString (bs : List Nat) : String :=
  String.mk (bs.map (fun b => Char.ofNat b))

/-- The binding's `handle_error` (`src/unnamed/part_000` lines 10-17):
a null error pointer yields the string "Success", a non-null one yields its
message bytes decoded as a string (and the record is freed). -/
def handle_error (err : Option datenlord_error) : String :=
  match err with
  | none => "Success"
  | some e => bytesToString e.message

/-- The binding's wrapper shape shared by `mkdir`, `deldir`, `rename_path`,
the copy operations, `create_file` and `write_file` (`src/unnamed/part_000`
lines 41-93): call the backing operation, pass the returned error pointer
through `handle_error`, return the resulting string to Python. -/
def wrap_op {α : Type} (impl : α → Option datenlord_error) (x : α) : String :=
  handle_error (impl x)

/-- The binding's `read_file` (`src/unnamed/part_000` lines 95-115): stat
the path; on stat failure raise with the decoded message; otherwise
allocate a `stat.size`-byte array, let the backing `read_file` fill it, on
read failure raise with the decoded message, and on success return a
memoryview over the allocated array.  `Except.error` models the raised
`std::runtime_error`. -/
def read_file_py (statImpl : Path → Except datenlord_error datenlord_file_stat)
    (readImpl : Path → List Nat → Except datenlord_error (List Nat))
    (p : Path) : Except String (List Nat) :=
  match statImpl p with
  | Except.error e => Except.error (handle_error (some e))
  | Except.ok st =>
    let buf := List.replicate st.size 0
    match readImpl p buf with
    | Except.error e => Except.error (handle_error (some e))
    | Except.ok written => Except.ok (writeInto buf written)

/-! Helper lemmas about the association-list store and the buffer model. -/

theorem lookup_nil (p : Path) : lookup ⟨[]⟩ p = none := rfl

theorem lookup_setEntry_self (s : SdkState) (p : Path) (n : FsNode) :
    lookup (setEntry s p n) p = some n := by
  simp [lookup, setEntry, List.find?]

theorem lookup_filter_none (fs : List (Path × FsNode))
    (q : Path × FsNode → Bool) (p : Path)
    (h : ∀ e, e ∈ fs → q e = true → ¬(e.1 = p)) :
    lookup ⟨fs.filter q⟩ p = none := by
  unfold lookup
  cases hf : (fs.filter q).find? (fun e => e.1 = p) with
  | none => rfl
  | some e =>
    have hmem := List.mem_of_find?_eq_some hf
    have hpred := List.find?_some hf
    rw [List.mem_filter] at hmem
    have he : e.1 = p := by simpa using hpred
    exact absurd he (h e hmem.1 hmem.2)

theorem writeInto_length (buf data : List Nat) :
    (writeInto buf data).length = buf.length := by
  unfold writeInto
  simp only [List.length_append, List.length_take, List.length_drop]
  omega

theorem writeInto_exact (buf data : List Nat) (h : buf.length = data.length) :
    writeInto buf data = data := by
  unfold writeInto
  rw [h, min_self, List.take_length, ← h, List.drop_length, List.append_nil]

/-! Claim theorems. -/

/-- C6: `exists` returns a boolean and has no error channel: a nonexistent
path yields `false` rather than an error, and the result is always one of
the two boolean values (no error record is ever produced by `exists`). -/
theorem c6_exists_no_error_channel (s : SdkState) (p : Path) :
    (lookup s p = none → existsPath s p = false) ∧
    (existsPath s p = false ∨ existsPath s p = true) := by
  constructor
  · intro h
    simp [existsPath, h]
  · cases h : existsPath s p
    · exact Or.inl rfl
    · exact Or.inr rfl

theorem c6_witness :
    lookup (⟨[]⟩ : SdkState) ["tmp"] = none ∧
    existsPath (⟨[]⟩ : SdkState) ["tmp"] = false :=
  ⟨rfl, (c6_exists_no_error_channel ⟨[]⟩ ["tmp"]).1 rfl⟩

/-- C7: for every non-empty directory `p`, `delete_dir p false` fails with
`NotEmpty`, while `delete_dir p true` on the same directory succeeds, after
which `exists p` returns `false`. -/
theorem c7_delete_nonempty_dir (s : SdkState) (p : Path)
    (hdir : lookup s p = some FsNode.dir)
    (hne : dirNonEmpty s p = true) :
    (delete_dir s p false).1 = some notEmptyErr ∧
    (delete_dir s p true).1 = none ∧
    existsPath (delete_dir s p true).2 p = false := by
  refine ⟨?_, ?_, ?_⟩
  · simp [delete_dir, hdir, hne]
  · simp [delete_dir, hdir, hne]
  · have hstate : (delete_dir s p true).2 =
        ⟨s.fs.filter (fun e => ¬(e.1 = p ∨ under p e.1 = true))⟩ := by
      simp [delete_dir, hdir, hne]
    rw [hstate]
    unfold existsPath
    rw [lookup_filter_none]
    · rfl
    intro e _ hq
    simp only [decide_eq_true_eq] at hq
    intro heq
    exact hq (Or.inl heq)

theorem c7_witness :
    (delete_dir ⟨[(["d"], FsNode.dir), (["d", "x"], FsNode.file [65])]⟩
        ["d"] false).1 = some notEmptyErr ∧
    (delete_dir ⟨[(["d"], FsNode.dir), (["d", "x"], FsNode.file [65])]⟩
        ["d"] true).1 = none ∧
    existsPath (delete_dir ⟨[(["d"], FsNode.dir), (["d", "x"], FsNode.file [65])]⟩
        ["d"] true).2 ["d"] = false :=
  c7_delete_nonempty_dir ⟨[(["d"], FsNode.dir), (["d", "x"], FsNode.file [65])]⟩
    ["d"] (by decide) (by decide)

/-- C8: when the destination `dp` already exists, `copy_from_local_file`
with `overwrite = false` fails with `AlreadyExists` and leaves the
destination's prior content unchanged; with `overwrite = true` it succeeds
and the destination's content equals the local file's content at call
time. -/
theorem c8_copy_overwrite_semantics (loc : LocalState) (s : SdkState)
    (lp dp : Path) (cL : List Nat)
    (hloc : lookupLocal loc lp = some cL)
    (hdst : (lookup s dp).isSome = true) :
    ((copy_from_local_file loc s false lp dp).1 = some alreadyExistsErr ∧
      lookup (copy_from_local_file loc s false lp dp).2 dp = lookup s dp) ∧
    ((copy_from_local_file loc s true lp dp).1 = none ∧
      lookup (copy_from_local_file loc s true lp dp).2 dp =
        some (FsNode.file cL)) := by
  refine ⟨⟨?_, ?_⟩, ?_, ?_⟩
  · simp [copy_from_local_file, hloc, hdst]
  · simp [copy_from_local_file, hloc, hdst]
  · simp [copy_from_local_file, hloc, hdst]
  · have hstate : (copy_from_local_file loc s true lp dp).2 =
        setEntry s dp (FsNode.file cL) := by
      simp [copy_from_local_file, hloc, hdst]
    rw [hstate, lookup_setEntry_self]

theorem c8_witness :
    ((copy_from_local_file ⟨[(["l"], [1, 2])]⟩ ⟨[(["d"], FsNode.file [9])]⟩
        false ["l"] ["d"]).1 = some alreadyExistsErr ∧
      lookup (copy_from_local_file ⟨[(["l"], [1, 2])]⟩
        ⟨[(["d"], FsNode.file [9])]⟩ false ["l"] ["d"]).2 ["d"] =
        lookup ⟨[(["d"], FsNode.file [9])]⟩ ["d"]) ∧
    ((copy_from_local_file ⟨[(["l"], [1, 2])]⟩ ⟨[(["d"], FsNode.file [9])]⟩
        true ["l"] ["d"]).1 = none ∧
      lookup (copy_from_local_file ⟨[(["l"], [1, 2])]⟩
        ⟨[(["d"], FsNode.file [9])]⟩ true ["l"] ["d"]).2 ["d"] =
        some (FsNode.file [1, 2])) :=
  c8_copy_overwrite_semantics ⟨[(["l"], [1, 2])]⟩ ⟨[(["d"], FsNode.file [9])]⟩
    ["l"] ["d"] [1, 2] (by decide) (by decide)

/-- On success `write_file` stores the written content at the path. -/
theorem write_file_ok_state (s : SdkState) (p : Path) (c : List Nat)
    (h : (write_file s p c).1 = none) :
    (write_file s p c).2 = setEntry s p (FsNode.file c) := by
  unfold write_file at h ⊢
  by_cases hp : parentOk s p = true
  · rw [if_pos hp] at h ⊢
    cases hl : lookup s p with
    | none => simp [hl]
    | some n =>
      cases n with
      | file c₀ => simp [hl]
      | dir => simp [hl] at h
  · rw [if_neg hp] at h
    simp at h

/-- C2: if `write_file p C` succeeds and the read buffer for `p` is sized
from a subsequent `stat` of `p`, then `read_file p` succeeds and yields
exactly `C`, byte for byte, including embedded zero bytes. -/
theorem c2_write_read_round_trip (s : SdkState) (p : Path) (c : List Nat)
    (cr : datenlord_file_stat)
    (h : (write_file s p c).1 = none) :
    ∃ st, stat (write_file s p c).2 p cr = Except.ok st ∧
      st.size = c.length ∧
      read_file (write_file s p c).2 p (List.replicate st.size 0) =
        Except.ok c := by
  have hstate := write_file_ok_state s p c h
  have hl : lookup (write_file s p c).2 p = some (FsNode.file c) := by
    rw [hstate, lookup_setEntry_self]
  refine ⟨mkStatRecord (FsNode.file c), ?_, rfl, ?_⟩
  · simp [stat, hl]
  · have hbuf : (List.replicate (mkStatRecord (FsNode.file c)).size 0).length
        = c.length := by
      simp [mkStatRecord]
    simp [read_file, hl, writeInto_exact _ _ hbuf]

theorem c2_witness :
    ∃ st, stat (write_file ⟨[]⟩ ["f"] [0, 65, 0]).2 ["f"]
        ⟨0, 0, 0, 0, 0, 0, 0, 0⟩ = Except.ok st ∧
      st.size = [0, 65, 0].length ∧
      read_file (write_file ⟨[]⟩ ["f"] [0, 65, 0]).2 ["f"]
        (List.replicate st.size 0) = Except.ok [0, 65, 0] :=
  c2_write_read_round_trip ⟨[]⟩ ["f"] [0, 65, 0] ⟨0, 0, 0, 0, 0, 0, 0, 0⟩
    (by decide)

/-- C3: `stat` takes a caller-allocated record as an out-parameter and, on
every success, overwrites all of its fields from the backing node — the
result is independent of the caller's record (nothing partially populated
survives) and equals a total function of the node; otherwise an error
record is returned. -/
theorem c3_stat_full_population (s : SdkState) (p : Path)
    (r₁ r₂ : datenlord_file_stat) :
    stat s p r₁ = stat s p r₂ ∧
    ((∃ e, stat s p r₁ = Except.error e ∧ 0 < e.code ∧ e.message ≠ []) ∨
      ∃ n, lookup s p = some n ∧ stat s p r₁ = Except.ok (mkStatRecord n)) := by
  constructor
  · unfold stat
    cases lookup s p <;> rfl
  · unfold stat
    cases hl : lookup s p with
    | none => exact Or.inl ⟨notFoundErr, rfl, by decide, by decide⟩
    | some n => exact Or.inr ⟨n, rfl, rfl⟩

theorem c3_witness :
    stat (⟨[(["f"], FsNode.file [1])]⟩ : SdkState) ["f"]
        ⟨0, 0, 0, 0, 0, 0, 0, 0⟩ =
      stat ⟨[(["f"], FsNode.file [1])]⟩ ["f"] ⟨9, 9, 9, 9, 9, 9, 9, 9⟩ ∧
    ((∃ e, stat (⟨[(["f"], FsNode.file [1])]⟩ : SdkState) ["f"]
        ⟨0, 0, 0, 0, 0, 0, 0, 0⟩ = Except.error e ∧
        0 < e.code ∧ e.message ≠ []) ∨
      ∃ n, lookup ⟨[(["f"], FsNode.file [1])]⟩ ["f"] = some n ∧
        stat (⟨[(["f"], FsNode.file [1])]⟩ : SdkState) ["f"]
          ⟨0, 0, 0, 0, 0, 0, 0, 0⟩ = Except.ok (mkStatRecord n)) :=
  c3_stat_full_population ⟨[(["f"], FsNode.file [1])]⟩ ["f"]
    ⟨0, 0, 0, 0, 0, 0, 0, 0⟩ ⟨9, 9, 9, 9, 9, 9, 9, 9⟩

/-- C5: `read_file` fills the caller-supplied buffer without allocating on
the caller's behalf: every successful read returns the caller's buffer
overwritten in place (same length), and when the buffer was pre-sized from
a prior `stat`, the bytes written fit within it and fill it exactly. -/
theorem c5_read_fills_presized_buffer (s : SdkState) (p : Path)
    (buf out : List Nat)
    (h : read_file s p buf = Except.ok out) :
    out.length = buf.length ∧
    ∀ (cr st : datenlord_file_stat), stat s p cr = Except.ok st →
      buf = List.replicate st.size 0 →
      out.length ≤ buf.length ∧ out.length = st.size := by
  have hlen : out.length = buf.length := by
    unfold read_file at h
    cases hl : lookup s p with
    | none => rw [hl] at h; exact absurd h (by simp)
    | some n =>
      cases n with
      | dir => rw [hl] at h; exact absurd h (by simp)
      | file c =>
        rw [hl] at h
        have : writeInto buf c = out := by simpa using h
        rw [← this, writeInto_length]
  refine ⟨hlen, ?_⟩
  intro cr st _ hbuf
  refine ⟨le_of_eq hlen, ?_⟩
  rw [hlen, hbuf, List.length_replicate]

theorem c5_witness :
    [7, 0].length = [0, 0].length ∧
    ∀ (cr st : datenlord_file_stat),
      stat ⟨[(["f"], FsNode.file [7, 0])]⟩ ["f"] cr = Except.ok st →
      [0, 0] = List.replicate st.size 0 →
      [7, 0].length ≤ [0, 0].length ∧ [7, 0].length = st.size :=
  c5_read_fills_presized_buffer ⟨[(["f"], FsNode.file [7, 0])]⟩ ["f"]
    [0, 0] [7, 0] (by rfl)

/-- C4: when the backing client cannot be established for a configuration
string, `init` returns no handle and an error record (with populated code
and non-empty message) is produced for the caller; on success `init`
returns a handle on which operations work (here: `mkdir` on the fresh
session succeeds). -/
theorem c4_init_handle_or_error (cc : String → Bool) (config : String) :
    (cc config = false →
      init cc config = Except.error connectionErr ∧
      0 < connectionErr.code ∧ connectionErr.message ≠ [] ∧
      ∀ h, init cc config ≠ Except.ok h) ∧
    (cc config = true →
      ∃ s, init cc config = Except.ok s ∧ ∀ p, (mkdir s p).1 = none) := by
  constructor
  · intro hfail
    refine ⟨by simp [init, hfail], by decide, by decide, ?_⟩
    intro h
    simp [init, hfail]
  · intro hok
    refine ⟨⟨[]⟩, by simp [init, hok], ?_⟩
    intro p
    simp [mkdir, lookup_nil]

theorem c4_witness :
    (init (fun c => !(c = "")) "" = Except.error connectionErr ∧
      0 < connectionErr.code ∧ connectionErr.message ≠ [] ∧
      ∀ h, init (fun c => !(c = "")) "" ≠ Except.ok h) ∧
    (∃ s, init (fun c => !(c = "")) "localhost" = Except.ok s ∧
      ∀ p, (mkdir s p).1 = none) :=
  ⟨(c4_init_handle_or_error (fun c => !(c = "")) "").1 (by decide),
    (c4_init_handle_or_error (fun c => !(c = "")) "localhost").2
      (by decide)⟩

/-- C9: the Python binding's `read_file` first calls `stat` and, on stat
success followed by read success, returns a view whose length equals
exactly the `size` reported by that stat call; if the stat or the
subsequent read fails, it raises an exception carrying the error's decoded
message instead of returning a buffer. -/
theorem c9_python_read_file
    (statImpl : Path → Except datenlord_error datenlord_file_stat)
    (readImpl : Path → List Nat → Except datenlord_error (List Nat))
    (p : Path) :
    (∀ out, read_file_py statImpl readImpl p = Except.ok out →
      ∃ st, statImpl p = Except.ok st ∧ out.length = st.size) ∧
    (∀ e, statImpl p = Except.error e →
      read_file_py statImpl readImpl p =
        Except.error (bytesToString e.message)) ∧
    (∀ st e, statImpl p = Except.ok st →
      readImpl p (List.replicate st.size 0) = Except.error e →
      read_file_py statImpl readImpl p =
        Except.error (bytesToString e.message)) := by
  refine ⟨?_, ?_, ?_⟩
  · intro out hout
    unfold read_file_py at hout
    cases hs : statImpl p with
    | error e => rw [hs] at hout; exact absurd hout (by simp)
    | ok st =>
      rw [hs] at hout
      dsimp only at hout
      refine ⟨st, rfl, ?_⟩
      cases hr : readImpl p (List.replicate st.size 0) with
      | error e => rw [hr] at hout; exact absurd hout (by simp)
      | ok written =>
        rw [hr] at hout
        have : writeInto (List.replicate st.size 0) written = out := by
          simpa using hout
        rw [← this, writeInto_length, List.length_replicate]
  · intro e hs
    unfold read_file_py
    rw [hs]
    rfl
  · intro st e hs hr
    unfold read_file_py
    rw [hs]
    simp only [hr]
    rfl

theorem c9_witness :
    ∃ st, (fun (_ : Path) =>
        (Except.ok ⟨1, 3, 1, 420, 1, 0, 0, 0⟩ :
          Except datenlord_error datenlord_file_stat)) ["f"] = Except.ok st ∧
      ([7, 8, 0] : List Nat).length = st.size :=
  (c9_python_read_file
    (fun _ => Except.ok ⟨1, 3, 1, 420, 1, 0, 0, 0⟩)
    (fun _ _ => Except.ok [7, 8]) ["f"]).1 [7, 8, 0] (by rfl)

/-- C1: for every fallible operation (`mkdir`, `delete_dir`, `rename_path`,
`copy_from_local_file`, `copy_to_local_file`, `create_file`, `stat`,
`write_file`, `read_file`), the operation succeeds if and only if the
returned error is null, and whenever an error is returned it carries a
populated (nonzero) numeric code and a non-empty message. -/
theorem c1_error_null_iff_success :
    (∀ (s : SdkState) (p : Path),
      ((mkdir s p).1 = none ↔ lookup s p = none) ∧
      ∀ e, (mkdir s p).1 = some e → 0 < e.code ∧ e.message ≠ []) ∧
    (∀ (s : SdkState) (p : Path) (r : Bool),
      ((delete_dir s p r).1 = none ↔
        (lookup s p = some FsNode.dir ∧
          (dirNonEmpty s p = false ∨ r = true))) ∧
      ∀ e, (delete_dir s p r).1 = some e → 0 < e.code ∧ e.message ≠ []) ∧
    (∀ (s : SdkState) (a b : Path),
      ((rename_path s a b).1 = none ↔
        ((lookup s a).isSome = true ∧ lookup s b = none)) ∧
      ∀ e, (rename_path s a b).1 = some e → 0 < e.code ∧ e.message ≠ []) ∧
    (∀ (loc : LocalState) (s : SdkState) (ow : Bool) (lp dp : Path),
      ((copy_from_local_file loc s ow lp dp).1 = none ↔
        ((lookupLocal loc lp).isSome = true ∧
          ((lookup s dp).isSome = true → ow = true))) ∧
      ∀ e, (copy_from_local_file loc s ow lp dp).1 = some e →
        0 < e.code ∧ e.message ≠ []) ∧
    (∀ (s : SdkState) (loc : LocalState) (sp lp : Path),
      ((copy_to_local_file s loc sp lp).1 = none ↔
        ∃ c, lookup s sp = some (FsNode.file c)) ∧
      ∀ e, (copy_to_local_file s loc sp lp).1 = some e →
        0 < e.code ∧ e.message ≠ []) ∧
    (∀ (s : SdkState) (p : Path),
      ((create_file s p).1 = none ↔ lookup s p = none) ∧
      ∀ e, (create_file s p).1 = some e → 0 < e.code ∧ e.message ≠ []) ∧
    (∀ (s : SdkState) (p : Path) (cr : datenlord_file_stat),
      ((∃ st, stat s p cr = Except.ok st) ↔ (lookup s p).isSome = true) ∧
      ∀ e, stat s p cr = Except.error e → 0 < e.code ∧ e.message ≠ []) ∧
    (∀ (s : SdkState) (p : Path) (c : List Nat),
      ((write_file s p c).1 = none ↔
        (parentOk s p = true ∧ lookup s p ≠ some FsNode.dir)) ∧
      ∀ e, (write_file s p c).1 = some e → 0 < e.code ∧ e.message ≠ []) ∧
    (∀ (s : SdkState) (p : Path) (buf : List Nat),
      ((∃ out, read_file s p buf = Except.ok out) ↔
        ∃ c, lookup s p = some (FsNode.file c)) ∧
      ∀ e, read_file s p buf = Except.error e →
        0 < e.code ∧ e.message ≠ []) := by
  refine ⟨?_, ?_, ?_, ?_, ?_, ?_, ?_, ?_, ?_⟩
  · intro s p
    unfold mkdir
    cases lookup s p with
    | none => exact ⟨by simp, by simp⟩
    | some n =>
      refine ⟨by simp, ?_⟩
      intro e he
      have : e = alreadyExistsErr := by simpa using he.symm
      rw [this]
      exact ⟨by decide, by decide⟩
  · intro s p r
    unfold delete_dir
    cases hl : lookup s p with
    | none =>
      refine ⟨by simp, ?_⟩
      intro e he
      have : e = notFoundErr := by simpa using he.symm
      rw [this]
      exact ⟨by decide, by decide⟩
    | some n =>
      cases n with
      | file c =>
        refine ⟨by simp, ?_⟩
        intro e he
        have : e = ioErr := by simpa using he.symm
        rw [this]
        exact ⟨by decide, by decide⟩
      | dir =>
        dsimp only
        by_cases hne : (dirNonEmpty s p && !r) = true
        · rw [if_pos hne]
          refine ⟨?_, ?_⟩
          · simp only [Bool.and_eq_true, Bool.not_eq_true'] at hne
            simp [hne.1, hne.2]
          · intro e he
            have : e = notEmptyErr := by simpa using he.symm
            rw [this]
            exact ⟨by decide, by decide⟩
        · rw [if_neg hne]
          refine ⟨?_, by simp⟩
          simp only [Bool.and_eq_true, Bool.not_eq_true'] at hne
          simp only [true_iff, eq_self_iff_true, true_and]
          by_cases hd : dirNonEmpty s p = true
          · have : r = true := by
              cases r with
              | false => exact absurd ⟨hd, rfl⟩ hne
              | true => rfl
            simp [this]
          · simp only [Bool.not_eq_true] at hd
            simp [hd]
  · intro s a b
    unfold rename_path
    cases lookup s a with
    | none =>
      refine ⟨by simp, ?_⟩
      intro e he
      have : e = notFoundErr := by simpa using he.symm
      rw [this]
      exact ⟨by decide, by decide⟩
    | some n =>
      cases lookup s b with
      | none => exact ⟨by simp, by simp⟩
      | some m =>
        refine ⟨by simp, ?_⟩
        intro e he
        have : e = alreadyExistsErr := by simpa using he.symm
        rw [this]
        exact ⟨by decide, by decide⟩
  · intro loc s ow lp dp
    unfold copy_from_local_file
    cases lookupLocal loc lp with
    | none =>
      refine ⟨by simp, ?_⟩
      intro e he
      have : e = notFoundErr := by simpa using he.symm
      rw [this]
      exact ⟨by decide, by decide⟩
    | some c =>
      dsimp only
      by_cases hcond : ((lookup s dp).isSome && !ow) = true
      · rw [if_pos hcond]
        simp only [Bool.and_eq_true, Bool.not_eq_true'] at hcond
        refine ⟨?_, ?_⟩
        · simp [hcond.1, hcond.2]
        · intro e he
          have : e = alreadyExistsErr := by simpa using he.symm
          rw [this]
          exact ⟨by decide, by decide⟩
      · rw [if_neg hcond]
        simp only [Bool.and_eq_true, Bool.not_eq_true'] at hcond
        refine ⟨?_, by simp⟩
        simp only [true_iff, eq_self_iff_true, true_and]
        refine ⟨rfl, ?_⟩
        intro hdst
        cases ow with
        | false => exact absurd ⟨hdst, rfl⟩ hcond
        | true => rfl
  · intro s loc sp lp
    unfold copy_to_local_file
    cases lookup s sp with
    | none =>
      refine ⟨by simp, ?_⟩
      intro e he
      have : e = notFoundErr := by simpa using he.symm
      rw [this]
      exact ⟨by decide, by decide⟩
    | some n =>
      cases n with
      | file c => exact ⟨by simp, by simp⟩
      | dir =>
        refine ⟨by simp, ?_⟩
        intro e he
        have : e = ioErr := by simpa using he.symm
        rw [this]
        exact ⟨by decide, by decide⟩
  · intro s p
    unfold create_file
    cases lookup s p with
    | none => exact ⟨by simp, by simp⟩
    | some n =>
      refine ⟨by simp, ?_⟩
      intro e he
      have : e = alreadyExistsErr := by simpa using he.symm
      rw [this]
      exact ⟨by decide, by decide⟩
  · intro s p cr
    unfold stat
    cases lookup s p with
    | none =>
      refine ⟨by simp, ?_⟩
      intro e he
      have : e = notFoundErr := by simpa using he.symm
      rw [this]
      exact ⟨by decide, by decide⟩
    | some n => exact ⟨by simp, by simp⟩
  · intro s p c
    unfold write_file
    by_cases hp : parentOk s p = true
    · rw [if_pos hp]
      cases hl : lookup s p with
      | none => simp [hp]
      | some n =>
        cases n with
        | file c₀ => simp [hp]
        | dir =>
          refine ⟨by simp, ?_⟩
          intro e he
          have : e = ioErr := by simpa using he.symm
          rw [this]
          exact ⟨by decide, by decide⟩
    · rw [if_neg hp]
      refine ⟨by simp [hp], ?_⟩
      intro e he
      have : e = notFoundErr := by simpa using he.symm
      rw [this]
      exact ⟨by decide, by decide⟩
  · intro s p buf
    unfold read_file
    cases lookup s p with
    | none =>
      refine ⟨by simp, ?_⟩
      intro e he
      have : e = notFoundErr := by simpa using he.symm
      rw [this]
      exact ⟨by decide, by decide⟩
    | some n =>
      cases n with
      | file c => exact ⟨by simp, by simp⟩
      | dir =>
        refine ⟨by simp, ?_⟩
        intro e he
        have : e = ioErr := by simpa using he.symm
        rw [this]
        exact ⟨by decide, by decide⟩

theorem c1_witness :
    0 < alreadyExistsErr.code ∧ alreadyExistsErr.message ≠ [] :=
  (c1_error_null_iff_success.1 ⟨[(["d"], FsNode.dir)]⟩ ["d"]).2
    alreadyExistsErr (by rfl)

/-- C10 counterexample: `handle_error` maps a NON-null error record whose
message bytes spell "Success" to the exact string "Success", so it does not
return "Success" only on a null pointer — the if-and-only-if direction of
the claim fails (exactly the collision the claim's own consequence
describes). -/
theorem c10_counterexample :
    handle_error (some ⟨1, strBytes "Success"⟩) = "Success" ∧
    some (⟨1, strBytes "Success"⟩ : datenlord_error) ≠ none := by
  exact ⟨by decide, by simp⟩

/-- C10 amended: `handle_error` returns "Success" if the error pointer is
null, and otherwise returns the error's message bytes decoded as a string;
consequently, for every wrapped fallible operation, a failure whose decoded
message equals "Success" produces the same Python-visible string as a
successful call — indistinguishable from success at the Python
interface. -/
theorem c10_handle_error_success_collision :
    handle_error none = "Success" ∧
    (∀ e, handle_error (some e) = bytesToString e.message) ∧
    (∀ (impl : Path → Option datenlord_error) (p : Path) (e : datenlord_error),
      impl p = some e → bytesToString e.message = "Success" →
      wrap_op impl p = wrap_op (fun _ => none) p) := by
  refine ⟨rfl, fun e => rfl, ?_⟩
  intro impl p e himpl hmsg
  unfold wrap_op
  rw [himpl]
  show bytesToString e.message = handle_error none
  rw [hmsg]
  rfl

theorem c10_witness :
    wrap_op (fun (_ : Path) => some (⟨7, strBytes "Success"⟩ : datenlord_error))
        ["f"] =
      wrap_op (fun (_ : Path) => (none : Option datenlord_error)) ["f"] :=
  c10_handle_error_success_collision.2.2
    (fun _ => some ⟨7, strBytes "Success"⟩) ["f"] ⟨7, strBytes "Success"⟩
    rfl (by decide)

end Datenlord
